import Mathlib

/-!
Verification development for the Catalyst Engine physics-extras plugin
(src/tools/game_engine_physics.py). The file embeds the property-bag
synchronizer `update_physics_props` together with its helper `sync_prop`,
and a decode direction modelled from the specification (the engine-side
decoder is not part of this repository).
-/

namespace Catalyst

/-- The body-type enum of the UI property `cat_phys_body`:
items NONE, static, dynamic, kinematic. -/
inductive PhysicsBody where
  | NONE
  | static
  | dynamic
  | kinematic
deriving DecidableEq

/-- The collider-shape enum of the UI property `cat_phys_shape`:
items NONE, box, sphere, capsule, convex, mesh. -/
inductive PhysicsShape where
  | NONE
  | box
  | sphere
  | capsule
  | convex
  | mesh
deriving DecidableEq

/-- The identifier string of a body enum item, as stored by the host
tool in `self.cat_phys_body` and written into the bag. -/
def bodyStr : PhysicsBody → String
  | .NONE => "NONE"
  | .static => "static"
  | .dynamic => "dynamic"
  | .kinematic => "kinematic"

/-- The identifier string of a shape enum item, as stored by the host
tool in `self.cat_phys_shape` and written into the bag. -/
def shapeStr : PhysicsShape → String
  | .NONE => "NONE"
  | .box => "box"
  | .sphere => "sphere"
  | .capsule => "capsule"
  | .convex => "convex"
  | .mesh => "mesh"

/-- A scalar value storable in the custom-property bag: float, integer,
boolean or string. Floats are modelled as rationals; no arithmetic is
ever performed on them. -/
inductive Value where
  | float (x : ℚ)
  | int (n : ℕ)
  | bool (b : Bool)
  | str (s : String)
deriving DecidableEq

/-- The custom-property bag of a scene object: a sparse string-keyed map. -/
def Bag : Type := String → Option Value

/-- Python dict assignment obj[k] = v. -/
def dict_set (obj : Bag) (k : String) (v : Value) : Bag :=
  fun k2 => if k2 = k then some v else obj k2

/-- Python del obj[k]: fails (raises KeyError) when the key is absent. -/
def dict_del (obj : Bag) (k : String) : Option Bag :=
  match obj k with
  | some _ => some (fun k2 => if k2 = k then none else obj k2)
  | none => none

/-- The helper sync_prop of update_physics_props (source lines 25-30):
sets the property when the condition holds, otherwise deletes it, the
deletion guarded by a membership test. The Option result records whether
the underlying dict operation succeeded. -/
def sync_prop (obj : Bag) (prop_name : String) (value : Value)
    (condition : Bool) : Option Bag :=
  if condition then
    some (dict_set obj prop_name value)
  else
    if (obj prop_name).isSome then dict_del obj prop_name else some obj

/-- The UI state record CatalystPhysicsSettings (source lines 59-101):
one field per registered property, with the types the properties carry. -/
structure CatalystPhysicsSettings where
  cat_phys_body : PhysicsBody
  cat_phys_shape : PhysicsShape
  cat_phys_mass : ℚ
  cat_phys_gravity_scale : ℚ
  cat_phys_linear_damping : ℚ
  cat_phys_angular_damping : ℚ
  cat_phys_is_trigger : Bool
  cat_phys_layer : ℕ
  cat_phys_mask : ℕ
  cat_phys_material : String
deriving DecidableEq

/-- The logical record of the specification; it has exactly the fields of
the UI state record, so we identify the two types. -/
abbrev PhysicsExtras := CatalystPhysicsSettings

/-- update_physics_props (source lines 20-53). The context object is an
optional bag; with no active object the function returns at once. The
outer Option records absence of a runtime failure, the inner Option is
the possibly untouched world state (none when there was no object). -/
def update_physics_props (self : CatalystPhysicsSettings)
    (ctx_object : Option Bag) : Option (Option Bag) :=
  match ctx_object with
  | none => some none
  | some obj => do
    let obj ← sync_prop obj "physics_body" (Value.str (bodyStr self.cat_phys_body))
      (decide (self.cat_phys_body ≠ PhysicsBody.NONE))
    let obj ← sync_prop obj "physics_shape" (Value.str (shapeStr self.cat_phys_shape))
      (decide (self.cat_phys_shape ≠ PhysicsShape.NONE))
    let is_dynamic := decide (self.cat_phys_body = PhysicsBody.dynamic)
    let has_physics := decide (self.cat_phys_body ≠ PhysicsBody.NONE) ||
      decide (self.cat_phys_shape ≠ PhysicsShape.NONE)
    let obj ← sync_prop obj "physics_mass" (Value.float self.cat_phys_mass) is_dynamic
    let obj ← sync_prop obj "physics_gravity_scale"
      (Value.float self.cat_phys_gravity_scale) is_dynamic
    let obj ← sync_prop obj "physics_linear_damping"
      (Value.float self.cat_phys_linear_damping) is_dynamic
    let obj ← sync_prop obj "physics_angular_damping"
      (Value.float self.cat_phys_angular_damping) is_dynamic
    let obj ← sync_prop obj "physics_is_trigger"
      (Value.bool self.cat_phys_is_trigger) has_physics
    let obj ← sync_prop obj "physics_layer" (Value.int self.cat_phys_layer) has_physics
    let obj ← sync_prop obj "physics_mask" (Value.int self.cat_phys_mask) has_physics
    let obj ← sync_prop obj "physics_material" (Value.str self.cat_phys_material)
      (has_physics && decide (0 < self.cat_phys_material.length))
    pure (some obj)

/-- Total description of one sync_prop step: set on a true condition,
remove on a false one. -/
def sync_run (obj : Bag) (prop_name : String) (value : Value)
    (condition : Bool) : Bag :=
  fun k2 =>
    if k2 = prop_name then (if condition then some value else none)
    else obj k2

/-- The total form of the whole update on an actual object: the ten
sync steps in source order. -/
def update_run (self : CatalystPhysicsSettings) (obj : Bag) : Bag :=
  let is_dynamic := decide (self.cat_phys_body = PhysicsBody.dynamic)
  let has_physics := decide (self.cat_phys_body ≠ PhysicsBody.NONE) ||
    decide (self.cat_phys_shape ≠ PhysicsShape.NONE)
  let b1 := sync_run obj "physics_body" (Value.str (bodyStr self.cat_phys_body))
    (decide (self.cat_phys_body ≠ PhysicsBody.NONE))
  let b2 := sync_run b1 "physics_shape" (Value.str (shapeStr self.cat_phys_shape))
    (decide (self.cat_phys_shape ≠ PhysicsShape.NONE))
  let b3 := sync_run b2 "physics_mass" (Value.float self.cat_phys_mass) is_dynamic
  let b4 := sync_run b3 "physics_gravity_scale"
    (Value.float self.cat_phys_gravity_scale) is_dynamic
  let b5 := sync_run b4 "physics_linear_damping"
    (Value.float self.cat_phys_linear_damping) is_dynamic
  let b6 := sync_run b5 "physics_angular_damping"
    (Value.float self.cat_phys_angular_damping) is_dynamic
  let b7 := sync_run b6 "physics_is_trigger"
    (Value.bool self.cat_phys_is_trigger) has_physics
  let b8 := sync_run b7 "physics_layer" (Value.int self.cat_phys_layer) has_physics
  let b9 := sync_run b8 "physics_mask" (Value.int self.cat_phys_mask) has_physics
  sync_run b9 "physics_material" (Value.str self.cat_phys_material)
    (has_physics && decide (0 < self.cat_phys_material.length))

/-- The empty property bag. -/
def emptyBag : Bag := fun _ => none

/-- Encoding a record into a fresh bag: the update applied to the empty
bag. -/
def encode (self : CatalystPhysicsSettings) : Bag :=
  update_run self emptyBag

theorem sync_prop_eq_some (obj : Bag) (k : String) (v : Value) (c : Bool) :
    sync_prop obj k v c = some (sync_run obj k v c) := by
  unfold sync_prop sync_run dict_set dict_del
  cases c with
  | true => simp
  | false =>
    simp only [Bool.false_eq_true, if_false]
    cases h : obj k with
    | some w => simp [h]
    | none =>
      simp only [h, Option.isSome_none, Bool.false_eq_true, if_false]
      congr 1
      funext k2
      by_cases hk : k2 = k
      · subst hk; simp [h]
      · simp [hk]

theorem update_physics_props_eq (self : CatalystPhysicsSettings) (obj : Bag) :
    update_physics_props self (some obj) = some (some (update_run self obj)) := by
  unfold update_physics_props update_run
  simp only [sync_prop_eq_some, Option.bind_some, bind, Option.bind]
  rfl

theorem sync_run_apply (obj : Bag) (key : String) (v : Value) (c : Bool)
    (k : String) :
    sync_run obj key v c k =
      if k = key then (if c then some v else none) else obj k := rfl

theorem string_length_pos_iff (s : String) : 0 < s.length ↔ s ≠ "" := by
  cases s with
  | mk data => simp [String.length, List.length_pos, String.ext_iff]

/-- The guard has_physics of the source, as a proposition. -/
def has_physics (self : CatalystPhysicsSettings) : Prop :=
  self.cat_phys_body ≠ PhysicsBody.NONE ∨ self.cat_phys_shape ≠ PhysicsShape.NONE

instance (self : CatalystPhysicsSettings) : Decidable (has_physics self) := by
  unfold has_physics; infer_instance

theorem update_run_body (self : CatalystPhysicsSettings) (obj : Bag) :
    update_run self obj "physics_body" =
      if self.cat_phys_body ≠ PhysicsBody.NONE
      then some (Value.str (bodyStr self.cat_phys_body)) else none := by
  simp [update_run, sync_run_apply]

theorem update_run_shape (self : CatalystPhysicsSettings) (obj : Bag) :
    update_run self obj "physics_shape" =
      if self.cat_phys_shape ≠ PhysicsShape.NONE
      then some (Value.str (shapeStr self.cat_phys_shape)) else none := by
  simp [update_run, sync_run_apply]

theorem update_run_mass (self : CatalystPhysicsSettings) (obj : Bag) :
    update_run self obj "physics_mass" =
      if self.cat_phys_body = PhysicsBody.dynamic
      then some (Value.float self.cat_phys_mass) else none := by
  simp [update_run, sync_run_apply]

theorem update_run_gravity (self : CatalystPhysicsSettings) (obj : Bag) :
    update_run self obj "physics_gravity_scale" =
      if self.cat_phys_body = PhysicsBody.dynamic
      then some (Value.float self.cat_phys_gravity_scale) else none := by
  simp [update_run, sync_run_apply]

theorem update_run_linear (self : CatalystPhysicsSettings) (obj : Bag) :
    update_run self obj "physics_linear_damping" =
      if self.cat_phys_body = PhysicsBody.dynamic
      then some (Value.float self.cat_phys_linear_damping) else none := by
  simp [update_run, sync_run_apply]

theorem update_run_angular (self : CatalystPhysicsSettings) (obj : Bag) :
    update_run self obj "physics_angular_damping" =
      if self.cat_phys_body = PhysicsBody.dynamic
      then some (Value.float self.cat_phys_angular_damping) else none := by
  simp [update_run, sync_run_apply]

theorem update_run_trigger (self : CatalystPhysicsSettings) (obj : Bag) :
    update_run self obj "physics_is_trigger" =
      if has_physics self then some (Value.bool self.cat_phys_is_trigger) else none := by
  simp [update_run, sync_run_apply, has_physics]

theorem update_run_layer (self : CatalystPhysicsSettings) (obj : Bag) :
    update_run self obj "physics_layer" =
      if has_physics self then some (Value.int self.cat_phys_layer) else none := by
  simp [update_run, sync_run_apply, has_physics]

theorem update_run_mask (self : CatalystPhysicsSettings) (obj : Bag) :
    update_run self obj "physics_mask" =
      if has_physics self then some (Value.int self.cat_phys_mask) else none := by
  simp [update_run, sync_run_apply, has_physics]

theorem update_run_material (self : CatalystPhysicsSettings) (obj : Bag) :
    update_run self obj "physics_material" =
      if has_physics self ∧ self.cat_phys_material ≠ ""
      then some (Value.str self.cat_phys_material) else none := by
  simp [update_run, sync_run_apply, has_physics, string_length_pos_iff]

/-- The ten bag keys the synchronizer owns. -/
def physicsKeys : List String :=
  ["physics_body", "physics_shape", "physics_mass", "physics_gravity_scale",
   "physics_linear_damping", "physics_angular_damping", "physics_is_trigger",
   "physics_layer", "physics_mask", "physics_material"]

theorem update_run_frame (self : CatalystPhysicsSettings) (obj : Bag)
    (k : String) (hk : k ∉ physicsKeys) :
    update_run self obj k = obj k := by
  simp only [physicsKeys, List.mem_cons, List.not_mem_nil, or_false,
    not_or] at hk
  obtain ⟨h1, h2, h3, h4, h5, h6, h7, h8, h9, h10⟩ := hk
  simp [update_run, sync_run_apply, h1, h2, h3, h4, h5, h6, h7, h8, h9, h10]

/-- Modelled from the spec: the recoverable decode errors of section 7,
UnknownEnumValue for an enum string outside the closed set and
MalformedBag for a value of the wrong scalar kind, each identifying the
offending key. -/
inductive DecodeError where
  | UnknownEnumValue (key : String)
  | MalformedBag (key : String)
deriving DecidableEq

/-- Modelled from the spec: decoding of the physics_body key. Absence
yields None; only the three serialized enum strings are accepted; any
other string is an UnknownEnumValue and a non-string a MalformedBag. -/
def decodeBody : Option Value → Except DecodeError PhysicsBody
  | none => .ok .NONE
  | some (Value.str s) =>
    if s = "static" then .ok .static
    else if s = "dynamic" then .ok .dynamic
    else if s = "kinematic" then .ok .kinematic
    else .error (.UnknownEnumValue "physics_body")
  | some _ => .error (.MalformedBag "physics_body")

/-- Modelled from the spec: decoding of the physics_shape key, with the
same conventions as the body key. -/
def decodeShape : Option Value → Except DecodeError PhysicsShape
  | none => .ok .NONE
  | some (Value.str s) =>
    if s = "box" then .ok .box
    else if s = "sphere" then .ok .sphere
    else if s = "capsule" then .ok .capsule
    else if s = "convex" then .ok .convex
    else if s = "mesh" then .ok .mesh
    else .error (.UnknownEnumValue "physics_shape")
  | some _ => .error (.MalformedBag "physics_shape")

/-- Modelled from the spec: decoding of a float-valued key with its
documented default for absence. -/
def decodeFloat (key : String) (dflt : ℚ) :
    Option Value → Except DecodeError ℚ
  | none => .ok dflt
  | some (Value.float x) => .ok x
  | some _ => .error (.MalformedBag key)

/-- Modelled from the spec: decoding of a boolean-valued key with its
documented default for absence. -/
def decodeBool (key : String) (dflt : Bool) :
    Option Value → Except DecodeError Bool
  | none => .ok dflt
  | some (Value.bool b) => .ok b
  | some _ => .error (.MalformedBag key)

/-- Modelled from the spec: decoding of an unsigned-integer key with its
documented default for absence. -/
def decodeNat (key : String) (dflt : ℕ) :
    Option Value → Except DecodeError ℕ
  | none => .ok dflt
  | some (Value.int n) => .ok n
  | some _ => .error (.MalformedBag key)

/-- Modelled from the spec: decoding of the material string, empty when
the key is absent. -/
def decodeString (key : String) :
    Option Value → Except DecodeError String
  | none => .ok ""
  | some (Value.str s) => .ok s
  | some _ => .error (.MalformedBag key)

/-- Modelled from the spec: the engine-side decode of section 4.1, which
is not part of this repository. Each key is read independently with
explicit defaulting; keys outside the ten physics keys are ignored; the
first structurally bad key is reported. -/
def decode (bag : Bag) : Except DecodeError PhysicsExtras := do
  let body ← decodeBody (bag "physics_body")
  let shape ← decodeShape (bag "physics_shape")
  let mass ← decodeFloat "physics_mass" 1 (bag "physics_mass")
  let gravity ← decodeFloat "physics_gravity_scale" 1 (bag "physics_gravity_scale")
  let lin ← decodeFloat "physics_linear_damping" 0 (bag "physics_linear_damping")
  let ang ← decodeFloat "physics_angular_damping" 0 (bag "physics_angular_damping")
  let trig ← decodeBool "physics_is_trigger" false (bag "physics_is_trigger")
  let layer ← decodeNat "physics_layer" 1 (bag "physics_layer")
  let mask ← decodeNat "physics_mask" 1 (bag "physics_mask")
  let material ← decodeString "physics_material" (bag "physics_material")
  pure ⟨body, shape, mass, gravity, lin, ang, trig, layer, mask, material⟩

/-- The all-default record: body and shape None and every other field at
its documented default. -/
def defaultRecord : PhysicsExtras :=
  ⟨.NONE, .NONE, 1, 1, 0, 0, false, 1, 1, ""⟩

/-- Restriction of a record to its meaningful fields, following the
words of the round-trip law: each field whose guard is false is replaced
by its documented default. -/
def restrictMeaningful (r : PhysicsExtras) : PhysicsExtras where
  cat_phys_body := r.cat_phys_body
  cat_phys_shape := r.cat_phys_shape
  cat_phys_mass :=
    if r.cat_phys_body = PhysicsBody.dynamic then r.cat_phys_mass else 1
  cat_phys_gravity_scale :=
    if r.cat_phys_body = PhysicsBody.dynamic then r.cat_phys_gravity_scale else 1
  cat_phys_linear_damping :=
    if r.cat_phys_body = PhysicsBody.dynamic then r.cat_phys_linear_damping else 0
  cat_phys_angular_damping :=
    if r.cat_phys_body = PhysicsBody.dynamic then r.cat_phys_angular_damping else 0
  cat_phys_is_trigger :=
    if has_physics r then r.cat_phys_is_trigger else false
  cat_phys_layer :=
    if has_physics r then r.cat_phys_layer else 1
  cat_phys_mask :=
    if has_physics r then r.cat_phys_mask else 1
  cat_phys_material :=
    if has_physics r ∧ r.cat_phys_material ≠ ""
    then r.cat_phys_material else ""

/-- The round-trip example record of the spec: a dynamic box of mass 5/2
with empty material. -/
def sampleDynamic : PhysicsExtras :=
  ⟨.dynamic, .box, 5/2, 1, 1/10, 0, false, 1, 1, ""⟩

/-- The static-body suppression example record: a static sphere with a
stale mass of 99 and material wood. -/
def staticSphere : PhysicsExtras :=
  ⟨.static, .sphere, 99, 1, 0, 0, false, 1, 1, "wood"⟩

/-- A record with no physics participation but junk values everywhere
else. -/
def noneRecord : PhysicsExtras :=
  ⟨.NONE, .NONE, 99, 7, 3, 4, true, 5, 6, "junk"⟩

/-- The partial-bag decode example: only physics_shape is present. -/
def meshBag : Bag :=
  fun k => if k = "physics_shape" then some (Value.str "mesh") else none

/-- The malformed-input example: physics_body holds the string flying. -/
def flyingBag : Bag :=
  fun k => if k = "physics_body" then some (Value.str "flying") else none

/-- A bag with every key present, used to observe active key removal. -/
def fullBag : Bag := fun _ => some (Value.int 0)

/-- Structural validity of the physics_body slot: absent, or one of the
three serialized enum strings. -/
def validBodyVal : Option Value → Bool
  | none => true
  | some (Value.str s) => s == "static" || s == "dynamic" || s == "kinematic"
  | some _ => false

/-- Structural validity of the physics_shape slot. -/
def validShapeVal : Option Value → Bool
  | none => true
  | some (Value.str s) =>
    s == "box" || s == "sphere" || s == "capsule" || s == "convex" || s == "mesh"
  | some _ => false

/-- Structural validity of a float slot: absent or a float. -/
def validFloatVal : Option Value → Bool
  | none => true
  | some (Value.float _) => true
  | some _ => false

/-- Structural validity of a boolean slot. -/
def validBoolVal : Option Value → Bool
  | none => true
  | some (Value.bool _) => true
  | some _ => false

/-- Structural validity of an unsigned-integer slot. -/
def validNatVal : Option Value → Bool
  | none => true
  | some (Value.int _) => true
  | some _ => false

/-- Structural validity of the material slot. -/
def validStrVal : Option Value → Bool
  | none => true
  | some (Value.str _) => true
  | some _ => false

/-- A structurally valid bag: every physics key that is present holds a
value of the right scalar kind, enum strings inside the closed set. -/
def ValidBag (bag : Bag) : Prop :=
  validBodyVal (bag "physics_body") = true ∧
  validShapeVal (bag "physics_shape") = true ∧
  validFloatVal (bag "physics_mass") = true ∧
  validFloatVal (bag "physics_gravity_scale") = true ∧
  validFloatVal (bag "physics_linear_damping") = true ∧
  validFloatVal (bag "physics_angular_damping") = true ∧
  validBoolVal (bag "physics_is_trigger") = true ∧
  validNatVal (bag "physics_layer") = true ∧
  validNatVal (bag "physics_mask") = true ∧
  validStrVal (bag "physics_material") = true

theorem decodeBody_isOk (v : Option Value) (h : validBodyVal v = true) :
    ∃ b, decodeBody v = Except.ok b := by
  cases v with
  | none => exact ⟨.NONE, rfl⟩
  | some val =>
    cases val with
    | str s =>
      simp only [validBodyVal, Bool.or_eq_true, beq_iff_eq] at h
      rcases h with (h | h) | h <;> subst h <;> simp [decodeBody]
    | float x => simp [validBodyVal] at h
    | int n => simp [validBodyVal] at h
    | bool b => simp [validBodyVal] at h

theorem decodeShape_isOk (v : Option Value) (h : validShapeVal v = true) :
    ∃ s, decodeShape v = Except.ok s := by
  cases v with
  | none => exact ⟨.NONE, rfl⟩
  | some val =>
    cases val with
    | str s =>
      simp only [validShapeVal, Bool.or_eq_true, beq_iff_eq] at h
      rcases h with (((h | h) | h) | h) | h <;> subst h <;> simp [decodeShape]
    | float x => simp [validShapeVal] at h
    | int n => simp [validShapeVal] at h
    | bool b => simp [validShapeVal] at h

theorem decodeFloat_isOk (key : String) (dflt : ℚ) (v : Option Value)
    (h : validFloatVal v = true) : ∃ x, decodeFloat key dflt v = Except.ok x := by
  cases v with
  | none => exact ⟨dflt, rfl⟩
  | some val =>
    cases val with
    | float x => exact ⟨x, rfl⟩
    | str s => simp [validFloatVal] at h
    | int n => simp [validFloatVal] at h
    | bool b => simp [validFloatVal] at h

theorem decodeBool_isOk (key : String) (dflt : Bool) (v : Option Value)
    (h : validBoolVal v = true) : ∃ x, decodeBool key dflt v = Except.ok x := by
  cases v with
  | none => exact ⟨dflt, rfl⟩
  | some val =>
    cases val with
    | bool b => exact ⟨b, rfl⟩
    | str s => simp [validBoolVal] at h
    | int n => simp [validBoolVal] at h
    | float x => simp [validBoolVal] at h

theorem decodeNat_isOk (key : String) (dflt : ℕ) (v : Option Value)
    (h : validNatVal v = true) : ∃ x, decodeNat key dflt v = Except.ok x := by
  cases v with
  | none => exact ⟨dflt, rfl⟩
  | some val =>
    cases val with
    | int n => exact ⟨n, rfl⟩
    | str s => simp [validNatVal] at h
    | bool b => simp [validNatVal] at h
    | float x => simp [validNatVal] at h

theorem decodeString_isOk (key : String) (v : Option Value)
    (h : validStrVal v = true) : ∃ x, decodeString key v = Except.ok x := by
  cases v with
  | none => exact ⟨"", rfl⟩
  | some val =>
    cases val with
    | str s => exact ⟨s, rfl⟩
    | int n => simp [validStrVal] at h
    | bool b => simp [validStrVal] at h
    | float x => simp [validStrVal] at h

/-- C1: for every PhysicsExtras record satisfying the section-3
constraints, decoding the encoded bag yields the record on every field
whose guard is true and the documented default on every field whose
guard is false. -/
theorem C1_round_trip (r : PhysicsExtras)
    (hm : 0 < r.cat_phys_mass)
    (hl : 0 ≤ r.cat_phys_linear_damping)
    (ha : 0 ≤ r.cat_phys_angular_damping) :
    decode (encode r) = Except.ok (restrictMeaningful r) := by
  obtain ⟨b, sh, m, g, l, a, t, ly, mk2, mat⟩ := r
  cases b <;> cases sh <;>
    by_cases hmat : mat = "" <;>
    simp [decode, encode, update_run_body, update_run_shape, update_run_mass,
      update_run_gravity, update_run_linear, update_run_angular,
      update_run_trigger, update_run_layer, update_run_mask,
      update_run_material, restrictMeaningful, has_physics,
      decodeBody, decodeShape, decodeFloat, decodeBool, decodeNat,
      decodeString, string_length_pos_iff, hmat, bodyStr, shapeStr,
      bind, Except.bind, pure, Except.pure]

/-- Witness for C1 at the round-trip example record of the spec. -/
theorem C1_round_trip_witness :
    decode (encode sampleDynamic) = Except.ok (restrictMeaningful sampleDynamic) :=
  C1_round_trip sampleDynamic (by norm_num [sampleDynamic])
    (by norm_num [sampleDynamic]) (by norm_num [sampleDynamic])

/-- C2: the four dynamics keys physics_mass, physics_gravity_scale,
physics_linear_damping and physics_angular_damping are emitted, each
mapped to its record field, exactly when the body is dynamic; in
particular the static-sphere example bag carries none of them. -/
theorem C2_dynamic_keys :
    (∀ (r : PhysicsExtras) (obj : Bag),
      update_run r obj "physics_mass" =
        (if r.cat_phys_body = PhysicsBody.dynamic
         then some (Value.float r.cat_phys_mass) else none) ∧
      update_run r obj "physics_gravity_scale" =
        (if r.cat_phys_body = PhysicsBody.dynamic
         then some (Value.float r.cat_phys_gravity_scale) else none) ∧
      update_run r obj "physics_linear_damping" =
        (if r.cat_phys_body = PhysicsBody.dynamic
         then some (Value.float r.cat_phys_linear_damping) else none) ∧
      update_run r obj "physics_angular_damping" =
        (if r.cat_phys_body = PhysicsBody.dynamic
         then some (Value.float r.cat_phys_angular_damping) else none)) ∧
    (encode staticSphere "physics_mass" = none ∧
     encode staticSphere "physics_gravity_scale" = none ∧
     encode staticSphere "physics_linear_damping" = none ∧
     encode staticSphere "physics_angular_damping" = none ∧
     encode staticSphere "physics_body" = some (Value.str "static") ∧
     encode staticSphere "physics_shape" = some (Value.str "sphere") ∧
     encode staticSphere "physics_is_trigger" = some (Value.bool false) ∧
     encode staticSphere "physics_layer" = some (Value.int 1) ∧
     encode staticSphere "physics_mask" = some (Value.int 1)) := by
  constructor
  · intro r obj
    exact ⟨update_run_mass r obj, update_run_gravity r obj,
      update_run_linear r obj, update_run_angular r obj⟩
  · refine ⟨?_, ?_, ?_, ?_, ?_, ?_, ?_, ?_, ?_⟩ <;>
      simp [encode, staticSphere, update_run_mass, update_run_gravity,
        update_run_linear, update_run_angular, update_run_body,
        update_run_shape, update_run_trigger, update_run_layer,
        update_run_mask, has_physics, bodyStr, shapeStr]

/-- C3: with body and shape both None the encoded bag is empty whatever
the other field values are, and the enum value None is never itself
written as a bag value under the two enum keys. -/
theorem C3_none_none_empty :
    (∀ r : PhysicsExtras, r.cat_phys_body = PhysicsBody.NONE →
      r.cat_phys_shape = PhysicsShape.NONE → ∀ k, encode r k = none) ∧
    (∀ (r : PhysicsExtras) (obj : Bag),
      update_run r obj "physics_body" ≠ some (Value.str "NONE") ∧
      update_run r obj "physics_shape" ≠ some (Value.str "NONE")) ∧
    (∀ k, encode noneRecord k = none) := by
  have hmain : ∀ r : PhysicsExtras, r.cat_phys_body = PhysicsBody.NONE →
      r.cat_phys_shape = PhysicsShape.NONE → ∀ k, encode r k = none := by
    intro r hb hs k
    by_cases hk : k ∈ physicsKeys
    · simp only [physicsKeys, List.mem_cons, List.not_mem_nil, or_false] at hk
      rcases hk with rfl | rfl | rfl | rfl | rfl | rfl | rfl | rfl | rfl | rfl <;>
        simp [encode, update_run_body, update_run_shape, update_run_mass,
          update_run_gravity, update_run_linear, update_run_angular,
          update_run_trigger, update_run_layer, update_run_mask,
          update_run_material, has_physics, hb, hs]
    · rw [encode, update_run_frame _ _ _ hk]; rfl
  refine ⟨hmain, ?_, hmain noneRecord rfl rfl⟩
  intro r obj
  constructor
  · rw [update_run_body]
    cases hb : r.cat_phys_body <;> simp [bodyStr]
  · rw [update_run_shape]
    cases hs : r.cat_phys_shape <;> simp [shapeStr]

/-- C4: every physics key whose emission guard is false for the current
record is actively removed from the prior bag; concretely, updating a
bag that holds every key with the static-sphere record leaves no mass
key behind even though the prior bag had one. -/
theorem C4_nonemitted_removed :
    (∀ (r : PhysicsExtras) (obj : Bag),
      (r.cat_phys_body = PhysicsBody.NONE →
        update_run r obj "physics_body" = none) ∧
      (r.cat_phys_shape = PhysicsShape.NONE →
        update_run r obj "physics_shape" = none) ∧
      (r.cat_phys_body ≠ PhysicsBody.dynamic →
        update_run r obj "physics_mass" = none ∧
        update_run r obj "physics_gravity_scale" = none ∧
        update_run r obj "physics_linear_damping" = none ∧
        update_run r obj "physics_angular_damping" = none) ∧
      (¬ has_physics r →
        update_run r obj "physics_is_trigger" = none ∧
        update_run r obj "physics_layer" = none ∧
        update_run r obj "physics_mask" = none) ∧
      (¬ (has_physics r ∧ r.cat_phys_material ≠ "") →
        update_run r obj "physics_material" = none)) ∧
    (update_run staticSphere fullBag "physics_mass" = none ∧
     fullBag "physics_mass" = some (Value.int 0)) := by
  constructor
  · intro r obj
    refine ⟨?_, ?_, ?_, ?_, ?_⟩
    · intro hb; simp [update_run_body, hb]
    · intro hs; simp [update_run_shape, hs]
    · intro hd
      simp [update_run_mass, update_run_gravity, update_run_linear,
        update_run_angular, hd]
    · intro hp; simp [update_run_trigger, update_run_layer, update_run_mask, hp]
    · intro hm; simp [update_run_material, hm]
  · exact ⟨by simp [update_run_mass, staticSphere], rfl⟩

/-- C5: the keys physics_is_trigger, physics_layer and physics_mask are
emitted, each mapped to its record field, exactly when the record has
physics, that is when body or shape differs from None. -/
theorem C5_has_physics_keys (r : PhysicsExtras) (obj : Bag) :
    update_run r obj "physics_is_trigger" =
      (if has_physics r then some (Value.bool r.cat_phys_is_trigger) else none) ∧
    update_run r obj "physics_layer" =
      (if has_physics r then some (Value.int r.cat_phys_layer) else none) ∧
    update_run r obj "physics_mask" =
      (if has_physics r then some (Value.int r.cat_phys_mask) else none) :=
  ⟨update_run_trigger r obj, update_run_layer r obj, update_run_mask r obj⟩

/-- C6: the physics_material key is emitted with the material string
exactly when the record has physics and the material is non-empty; the
wood material of the static sphere is emitted, the empty material of the
dynamic example is suppressed. -/
theorem C6_material_key :
    (∀ (r : PhysicsExtras) (obj : Bag),
      update_run r obj "physics_material" =
        (if has_physics r ∧ r.cat_phys_material ≠ ""
         then some (Value.str r.cat_phys_material) else none)) ∧
    encode staticSphere "physics_material" = some (Value.str "wood") ∧
    encode sampleDynamic "physics_material" = none := by
  refine ⟨fun r obj => update_run_material r obj, ?_, ?_⟩
  · simp [encode, update_run_material, staticSphere, has_physics]
  · simp [encode, update_run_material, sampleDynamic, has_physics]

/-- C7: decode succeeds on every structurally valid bag, with every
absent key decoded to the documented default of its field; the empty bag
yields the all-default record, and the bag holding only a mesh shape
yields the default record with shape mesh. -/
theorem C7_decode_total :
    (∀ bag : Bag, ValidBag bag →
      ∃ r, decode bag = Except.ok r ∧
        (bag "physics_body" = none → r.cat_phys_body = PhysicsBody.NONE) ∧
        (bag "physics_shape" = none → r.cat_phys_shape = PhysicsShape.NONE) ∧
        (bag "physics_mass" = none → r.cat_phys_mass = 1) ∧
        (bag "physics_gravity_scale" = none → r.cat_phys_gravity_scale = 1) ∧
        (bag "physics_linear_damping" = none → r.cat_phys_linear_damping = 0) ∧
        (bag "physics_angular_damping" = none → r.cat_phys_angular_damping = 0) ∧
        (bag "physics_is_trigger" = none → r.cat_phys_is_trigger = false) ∧
        (bag "physics_layer" = none → r.cat_phys_layer = 1) ∧
        (bag "physics_mask" = none → r.cat_phys_mask = 1) ∧
        (bag "physics_material" = none → r.cat_phys_material = "")) ∧
    decode emptyBag = Except.ok defaultRecord ∧
    decode meshBag =
      Except.ok { defaultRecord with cat_phys_shape := PhysicsShape.mesh } := by
  refine ⟨?_, ?_, ?_⟩
  · intro bag hv
    obtain ⟨h1, h2, h3, h4, h5, h6, h7, h8, h9, h10⟩ := hv
    obtain ⟨b, hb⟩ := decodeBody_isOk _ h1
    obtain ⟨sh, hsh⟩ := decodeShape_isOk _ h2
    obtain ⟨m, hm⟩ := decodeFloat_isOk "physics_mass" 1 _ h3
    obtain ⟨g, hg⟩ := decodeFloat_isOk "physics_gravity_scale" 1 _ h4
    obtain ⟨l, hl⟩ := decodeFloat_isOk "physics_linear_damping" 0 _ h5
    obtain ⟨a, ha⟩ := decodeFloat_isOk "physics_angular_damping" 0 _ h6
    obtain ⟨t, ht⟩ := decodeBool_isOk "physics_is_trigger" false _ h7
    obtain ⟨ly, hly⟩ := decodeNat_isOk "physics_layer" 1 _ h8
    obtain ⟨mk2, hmk⟩ := decodeNat_isOk "physics_mask" 1 _ h9
    obtain ⟨mat, hmat⟩ := decodeString_isOk "physics_material" _ h10
    refine ⟨⟨b, sh, m, g, l, a, t, ly, mk2, mat⟩, ?_, ?_, ?_, ?_, ?_, ?_, ?_,
      ?_, ?_, ?_, ?_⟩
    · simp [decode, hb, hsh, hm, hg, hl, ha, ht, hly, hmk, hmat,
        bind, Except.bind, pure, Except.pure]
    · intro hn; rw [hn] at hb; exact (Except.ok.inj hb).symm
    · intro hn; rw [hn] at hsh; exact (Except.ok.inj hsh).symm
    · intro hn; rw [hn] at hm; exact (Except.ok.inj hm).symm
    · intro hn; rw [hn] at hg; exact (Except.ok.inj hg).symm
    · intro hn; rw [hn] at hl; exact (Except.ok.inj hl).symm
    · intro hn; rw [hn] at ha; exact (Except.ok.inj ha).symm
    · intro hn; rw [hn] at ht; exact (Except.ok.inj ht).symm
    · intro hn; rw [hn] at hly; exact (Except.ok.inj hly).symm
    · intro hn; rw [hn] at hmk; exact (Except.ok.inj hmk).symm
    · intro hn; rw [hn] at hmat; exact (Except.ok.inj hmat).symm
  · rfl
  · simp [decode, meshBag, decodeBody, decodeShape, decodeFloat, decodeBool,
      decodeNat, decodeString, defaultRecord, bind, Except.bind,
      pure, Except.pure]

/-- C8: a bag whose physics_body key holds a string outside the closed
enum set decodes to an UnknownEnumValue error naming physics_body; with
a well-decoded body, an out-of-set shape string yields an
UnknownEnumValue error naming physics_shape; in particular the bag with
body flying reports UnknownEnumValue for physics_body. -/
theorem C8_unknown_enum :
    (∀ (bag : Bag) (s : String), bag "physics_body" = some (Value.str s) →
      s ≠ "static" → s ≠ "dynamic" → s ≠ "kinematic" →
      decode bag = Except.error (DecodeError.UnknownEnumValue "physics_body")) ∧
    (∀ (bag : Bag) (b : PhysicsBody) (s : String),
      decodeBody (bag "physics_body") = Except.ok b →
      bag "physics_shape" = some (Value.str s) →
      s ≠ "box" → s ≠ "sphere" → s ≠ "capsule" → s ≠ "convex" → s ≠ "mesh" →
      decode bag = Except.error (DecodeError.UnknownEnumValue "physics_shape")) ∧
    decode flyingBag = Except.error (DecodeError.UnknownEnumValue "physics_body") := by
  refine ⟨?_, ?_, ?_⟩
  · intro bag s hb h1 h2 h3
    simp [decode, hb, decodeBody, h1, h2, h3, bind, Except.bind]
  · intro bag b s hb hs h1 h2 h3 h4 h5
    simp [decode, hb, hs, decodeShape, h1, h2, h3, h4, h5, bind, Except.bind]
  · simp [decode, flyingBag, decodeBody, bind, Except.bind]

/-- C9: an update touches only the ten physics keys; at every other key
the updated bag agrees with the prior bag, and the update itself
succeeds. -/
theorem C9_frame (self : PhysicsExtras) (obj : Bag) (k : String)
    (hk : k ∉ physicsKeys) :
    ∃ b2, update_physics_props self (some obj) = some (some b2) ∧
      b2 k = obj k :=
  ⟨update_run self obj, update_physics_props_eq self obj,
    update_run_frame self obj k hk⟩

/-- Witness for C9 at a foreign key of a fully populated bag. -/
theorem C9_frame_witness :
    ∃ b2, update_physics_props sampleDynamic (some fullBag) = some (some b2) ∧
      b2 "custom_tag" = fullBag "custom_tag" :=
  C9_frame sampleDynamic fullBag "custom_tag" (by decide)

/-- C10: with no active object the update returns at once with no
failure and no state change; raw deletion of an absent key would fail,
but the membership guard in sync_prop turns deletion of an absent key
into a harmless no-op, so sync_prop never fails. -/
theorem C10_safety :
    (∀ self : PhysicsExtras, update_physics_props self none = some none) ∧
    (∀ (obj : Bag) (k : String), obj k = none → dict_del obj k = none) ∧
    (∀ (obj : Bag) (k : String) (v : Value), obj k = none →
      sync_prop obj k v false = some obj) ∧
    (∀ (obj : Bag) (k : String) (v : Value) (c : Bool),
      (sync_prop obj k v c).isSome = true) := by
  refine ⟨fun self => rfl, ?_, ?_, ?_⟩
  · intro obj k h; simp [dict_del, h]
  · intro obj k v h; simp [sync_prop, h]
  · intro obj k v c; rw [sync_prop_eq_some]; rfl

end Catalyst
